import Mathlib

/-!
Verification of the vevor-ble-bridge repository (src/vevor.py, src/main.py)
against its natural-language specification.

The Python source is shallowly embedded: pure functions become Lean
functions, the stateful supervisor loop becomes explicit state passing over
a `SupState` record, byte strings become `List Nat` (every element of a
Python `bytes` object lies in [0, 256)), Python `float` timestamps become
exact rationals, and fallible code returns `Option` / `Except`.
-/

namespace VevorBridge

/-! ## Codec: `src/vevor.py` -/

/-- `_u8tonumber` from src/vevor.py lines 15-16: `(e + 256) if (e < 0) else e`. -/
def _u8tonumber (e : Int) : Int := if e < 0 then e + 256 else e

/-- `_UnsignToSign` from src/vevor.py lines 19-22. The Python body is
`if e > 32767.5: e = e | -65536`; on the arguments the decoder produces
(`256 * byte + byte`, hence `0 ≤ e ≤ 65535`) the bitwise-or `e | -65536`
equals `e - 65536`, and for an integer `e` the float comparison
`e > 32767.5` holds exactly when `32767 < e`. -/
def _UnsignToSign (e : Int) : Int := if 32767 < e then e - 65536 else e

/-- `_DieselHeaterNotification._error_strings` (src/vevor.py lines 26-38),
the Standard-header (0xAA,0x55) error table. -/
def _error_strings : List String :=
  ["No fault", "Startup failure", "Lack of fuel", "Supply voltage overrun",
   "Outlet sensor fault", "Inlet sensor fault", "Pulse pump fault",
   "Fan fault", "Ignition unit fault", "Overheating", "Overheat sensor fault"]

/-- `_DieselHeaterNotification._error_strings_alt` (src/vevor.py lines 39-51),
the Alternate-header (0xAA,0x66) error table; `none` models the Python `None`
slots. -/
def _error_strings_alt : List (Option String) :=
  [some "No fault", some "Supply voltage overrun", none,
   some "Ignition unit fault", some "Pulse pump fault", some "Overheating",
   some "Fan fault", none, some "Lack of fuel", some "Overheat sensor fault",
   some "Startup failure"]

/-- `_DieselHeaterNotification._running_step_strings` (src/vevor.py lines 52-58). -/
def _running_step_strings : List String :=
  ["Standby", "Self-test", "Ignition", "Running", "Cooldown"]

/-- The decoded status snapshot: the attributes `_DieselHeaterNotification.__init__`
(src/vevor.py lines 60-125) assigns. `supply_voltage` is the Python float
`(256*je[12] + je[11]) / 10` modelled exactly as a rational. -/
structure Snapshot where
  running_state : Int
  error : Int
  error_msg : Option String
  running_step : Int
  running_step_msg : String
  altitude : Int
  running_mode : Int
  set_level : Int
  set_temperature : Option Int
  supply_voltage : ℚ
  case_temperature : Int
  cab_temperature : Int
  md : Int
deriving Repr, DecidableEq

/-- The ways `_DieselHeaterNotification.__init__` can raise instead of
producing a snapshot: a tuple/bytes index out of range, the explicit
`RuntimeError("Unrecognized running mode")`, the Extended-header
`RuntimeError("Unsupported payload (todo)")`, and the fallback
`RuntimeError("Unrecognized payload")`. -/
inductive DecodeError
  | indexError
  | unrecognizedRunningMode
  | unsupportedPayload
  | unrecognizedPayload
deriving Repr, DecidableEq

instance {ε α : Type} [DecidableEq ε] [DecidableEq α] :
    DecidableEq (Except ε α) := fun x y =>
  match x, y with
  | .ok a, .ok b =>
    if h : a = b then .isTrue (by rw [h]) else .isFalse (by simp [h])
  | .error a, .error b =>
    if h : a = b then .isTrue (by rw [h]) else .isFalse (by simp [h])
  | .ok _, .error _ => .isFalse (by simp)
  | .error _, .ok _ => .isFalse (by simp)

/-- Python indexing `xs[i]`: an out-of-range index raises. -/
def fetch {α : Type} (o : Option α) : Except DecodeError α :=
  o.elim (.error .indexError) .ok

/-- The `match self.running_mode` block that appears verbatim in both the
Standard branch (src/vevor.py lines 76-87) and the Alternate branch
(lines 104-115): given bytes 8, 9 and 10 it produces the
(`set_level`, `set_temperature`) pair, or raises
`RuntimeError("Unrecognized running mode")`. -/
def modeSelect (b8 b9 b10 : Nat) : Except DecodeError (ℤ × Option ℤ) :=
  if _u8tonumber b8 = 0 then .ok (_u8tonumber b10 + 1, none)
  else if _u8tonumber b8 = 1 then .ok (_u8tonumber b9, none)
  else if _u8tonumber b8 = 2 then .ok (_u8tonumber b10 + 1, some (_u8tonumber b9))
  else .error .unrecognizedRunningMode

/-- The Standard-header (0xAA,0x55) decode branch, src/vevor.py lines 64-93.
All byte reads of the branch are gathered up front; a frame too short for
the layout fails with `indexError` here just as `je[k]` raises in Python
(only the point of failure within a failing decode differs, never the
success value). -/
def decodeStdBody (je : List Nat) : Except DecodeError Snapshot := do
  let b3 ← fetch (je.get? 3)
  let b4 ← fetch (je.get? 4)
  let b5 ← fetch (je.get? 5)
  let b6 ← fetch (je.get? 6)
  let b7 ← fetch (je.get? 7)
  let b8 ← fetch (je.get? 8)
  let b9 ← fetch (je.get? 9)
  let b10 ← fetch (je.get? 10)
  let b11 ← fetch (je.get? 11)
  let b12 ← fetch (je.get? 12)
  let b13 ← fetch (je.get? 13)
  let b14 ← fetch (je.get? 14)
  let b15 ← fetch (je.get? 15)
  let b16 ← fetch (je.get? 16)
  let emsg ← fetch (_error_strings.get? (_u8tonumber b4).toNat)
  let smsg ← fetch (_running_step_strings.get? (_u8tonumber b5).toNat)
  let lvltmp ← modeSelect b8 b9 b10
  Except.ok
    { running_state := _u8tonumber b3
      error := _u8tonumber b4
      error_msg := some emsg
      running_step := _u8tonumber b5
      running_step_msg := smsg
      altitude := _u8tonumber b6 + 256 * _u8tonumber b7
      running_mode := _u8tonumber b8
      set_level := lvltmp.1
      set_temperature := lvltmp.2
      supply_voltage := ((256 * _u8tonumber b12 + _u8tonumber b11 : Int) : ℚ) / 10
      case_temperature := _UnsignToSign (256 * (b14 : Int) + (b13 : Int))
      cab_temperature := _UnsignToSign (256 * (b16 : Int) + (b15 : Int))
      md := 1 }

/-- The Alternate-header (0xAA,0x66) decode branch, src/vevor.py lines 94-121:
identical to the Standard branch except that the error code comes from byte 17,
the message from `_error_strings_alt` (whose slots may be `None`), and `md = 3`. -/
def decodeAltBody (je : List Nat) : Except DecodeError Snapshot := do
  let b3 ← fetch (je.get? 3)
  let b17 ← fetch (je.get? 17)
  let b5 ← fetch (je.get? 5)
  let b6 ← fetch (je.get? 6)
  let b7 ← fetch (je.get? 7)
  let b8 ← fetch (je.get? 8)
  let b9 ← fetch (je.get? 9)
  let b10 ← fetch (je.get? 10)
  let b11 ← fetch (je.get? 11)
  let b12 ← fetch (je.get? 12)
  let b13 ← fetch (je.get? 13)
  let b14 ← fetch (je.get? 14)
  let b15 ← fetch (je.get? 15)
  let b16 ← fetch (je.get? 16)
  let emsg ← fetch (_error_strings_alt.get? (_u8tonumber b17).toNat)
  let smsg ← fetch (_running_step_strings.get? (_u8tonumber b5).toNat)
  let lvltmp ← modeSelect b8 b9 b10
  Except.ok
    { running_state := _u8tonumber b3
      error := _u8tonumber b17
      error_msg := emsg
      running_step := _u8tonumber b5
      running_step_msg := smsg
      altitude := _u8tonumber b6 + 256 * _u8tonumber b7
      running_mode := _u8tonumber b8
      set_level := lvltmp.1
      set_temperature := lvltmp.2
      supply_voltage := ((256 * _u8tonumber b12 + _u8tonumber b11 : Int) : ℚ) / 10
      case_temperature := _UnsignToSign (256 * (b14 : Int) + (b13 : Int))
      cab_temperature := _UnsignToSign (256 * (b16 : Int) + (b15 : Int))
      md := 3 }

/-- `_DieselHeaterNotification.__init__` (src/vevor.py lines 60-125): dispatch
on the two-byte header `fb = _u8tonumber(je[0])`, `sb = _u8tonumber(je[1])`. -/
def decodeNotification (je : List Nat) : Except DecodeError Snapshot := do
  let b0 ← fetch (je.get? 0)
  let b1 ← fetch (je.get? 1)
  let fb := _u8tonumber b0
  let sb := _u8tonumber b1
  if 170 = fb ∧ 85 = sb then decodeStdBody je
  else if 170 = fb ∧ 102 = sb then decodeAltBody je
  else if 170 = fb ∧ 136 = sb then Except.error .unsupportedPayload
  else Except.error .unrecognizedPayload

/-! ## Command encoding: `DieselHeater._send_command`, src/vevor.py lines 204-215 -/

/-- Python `%` with a positive divisor (all call sites use 256 or 100):
the result lies in `[0, b)`, which is Euclidean `%` on `Int`. -/
def pyMod (a b : Int) : Int := a % b

/-- Python `math.floor(a / b)` with a positive divisor: floor division,
which for a positive divisor is Euclidean `/` on `Int`. -/
def pyFloorDiv (a b : Int) : Int := a / b

/-- A Python `bytearray` item assignment `o[i] = v`: raises `ValueError`
unless `0 ≤ v < 256`. -/
def byteVal (v : Int) : Option Int :=
  if 0 ≤ v ∧ v < 256 then some v else none

/-- The frame construction of `DieselHeater._send_command`
(src/vevor.py lines 204-215), up to and including the checksum byte.
`r2`/`r3` stand for the two `random.randint(0, 255)` draws used when
`n = 136`; for other `n` the key bytes come from the passkey.
`none` models a raised `ValueError` from a bytearray assignment. -/
def _send_command_frame (passkey command argument n r2 r3 : Int) :
    Option (List Int) := do
  let o1 ← byteVal (pyMod n 256)
  let o2 ← byteVal (if n = 136 then r2 else pyFloorDiv passkey 100)
  let o3 ← byteVal (if n = 136 then r3 else pyMod passkey 100)
  let o4 ← byteVal (pyMod command 256)
  let o5 ← byteVal (pyMod argument 256)
  let o6 ← byteVal (pyFloorDiv argument 256)
  let o7 ← byteVal (o2 + o3 + o4 + o5 + o6)
  some [0xAA, o1, o2, o3, o4, o5, o6, o7]

/-! ## Response wait: `DieselHeater._send_command`, src/vevor.py lines 217-243 -/

/-- Outcome of `self.characteristic.write(o, withResponse=True)`. -/
inductive WriteResult
  | ok
  | disconnected
  | failed
deriving Repr, DecidableEq

/-- Outcome of `self.peripheral.waitForNotifications(1.0)`: it returns a
boolean, or raises. -/
inductive WaitResult
  | returned (b : Bool)
  | disconnected
  | failed
deriving Repr, DecidableEq

/-- Errors `_send_command` propagates to its caller. -/
inductive LinkFailure
  | linkDisconnected
  | runtimeError
deriving Repr, DecidableEq

/-- The post-encoding behaviour of `_send_command` (src/vevor.py lines
217-243). `arrived` is the content of the `_last_notification` mailbox
after the wait; the mailbox is cleared (`self._last_notification = None`)
before the write, so `arrived = none` exactly when no notification was
delivered during the exchange. -/
def sendCommandOutcome (w : WriteResult) (wait : WaitResult)
    (arrived : Option Snapshot) : Except LinkFailure (Option Snapshot) :=
  match w with
  | .disconnected => .error .linkDisconnected
  | .failed => .error .runtimeError
  | .ok =>
    match wait with
    | .disconnected => .error .linkDisconnected
    | .failed => .error .runtimeError
    | .returned b =>
      if b then
        match arrived with
        | some nt => .ok (some nt)
        | none => .ok none
      else .ok none

/-! ## Supervisor: `src/main.py`

Module-level constants of src/main.py lines 524-557 that the claims touch.
Timestamps (`time.time()` floats) are modelled as exact rationals. -/

def max_reconnect_attempts : Int := 5
def max_consecutive_failures : Int := 2
def overheat_lockout_time : ℚ := 60
def overheat_extended_lockout : ℚ := 300

/-- The externally configured values read by the modelled code paths:
`OVERHEAT_THRESHOLD` (default 256) and `TEMP_LEVEL_LIMITING` (default on). -/
structure SupConfig where
  overheat_threshold : Int
  temp_limiting_enabled : Bool
deriving Repr, DecidableEq

/-- `get_max_allowed_level` from src/main.py lines 559-581, with the two
globals it reads (`temp_limiting_enabled`, `overheat_threshold`) passed
explicitly. -/
def get_max_allowed_level (enabled : Bool) (threshold temperature : Int) : Int :=
  if ¬ enabled then 36
  else if temperature ≥ threshold then 1
  else if temperature ≥ threshold - 1 then 2
  else if temperature ≥ threshold - 3 then 4
  else if temperature ≥ threshold - 5 then 6
  else if temperature ≥ threshold - 8 then 8
  else if temperature ≥ threshold - 11 then 10
  else 36

/-- The module-level mutable state of src/main.py that the modelled code
paths read or write. `vdh_connected` stands for `vdh is not None`. -/
structure SupState where
  vdh_connected : Bool
  overheat_active : Bool
  overheat_start_time : ℚ
  overheat_last_temp : Int
  overheat_temp_rising_count : Int
  last_max_allowed_level : Int
  current_case_temperature : Int
  current_heater_level : Int
  consecutive_failures : Int
  last_successful_poll : ℚ
  reconnect_attempt : Int
  failed_reconnects_total : Int
  system_state : String
deriving Repr, DecidableEq

/-- Messages published on `client.publish` to the topics the claims are
about. Payload strings carrying interpolated numbers are modelled
structurally (topic `temp_limiting/state`, `overheat/state`,
`status/state`); `dispatched` marks the final `dispatch_result(result)`
call, whose own publishes are outside the claims. -/
inductive Pub
  | tempLimitActive (maxLevel : Int)
  | tempLimitInactive
  | overheatActiveError5
  | overheatActiveTemp (t : Int)
  | overheatInactive
  | overheatLockoutRemaining (secs : ℚ)
  | status (msg : String)
  | dispatched (s : Snapshot)
deriving Repr, DecidableEq

/-- BLE request/response commands issued through the `DieselHeater` object. -/
inductive BleCmd
  | getStatus
  | start
  | stop
  | setLevel (n : Int)
  | setMode (m : Int)
deriving Repr, DecidableEq

/-- src/main.py lines 628-641: recompute the level cap and publish a
temperature-limiting state change when it differs from the stored one. -/
def tempLimitStep (cfg : SupConfig) (st : SupState) : SupState × List Pub :=
  let current_max_allowed :=
    get_max_allowed_level cfg.temp_limiting_enabled cfg.overheat_threshold
      st.current_case_temperature
  if current_max_allowed ≠ st.last_max_allowed_level then
    let pubs :=
      if current_max_allowed < 36 then [Pub.tempLimitActive current_max_allowed]
      else if st.last_max_allowed_level < 36 then [Pub.tempLimitInactive]
      else []
    ({ st with last_max_allowed_level := current_max_allowed }, pubs)
  else (st, [])

/-- src/main.py lines 648-662: the device reported error code 5; if the
guard is inactive, activate it (recording start time, temperature, and a
zero rising count) and publish; the already-active case only logs. -/
def error5Step (now : ℚ) (st : SupState) (result : Snapshot) :
    SupState × List Pub :=
  if result.error = 5 then
    if ¬ st.overheat_active then
      ({ st with overheat_active := true
                 overheat_start_time := now
                 overheat_last_temp := result.case_temperature
                 overheat_temp_rising_count := 0 },
       [Pub.overheatActiveError5])
    else (st, [])
  else (st, [])

/-- src/main.py lines 664-705: while the guard is active, monitor the
temperature trend against the local `current_lockout` (reset to the
60-second default on every poll) and deactivate once the elapsed time
reaches it; otherwise enter the guard when the case temperature reaches
the threshold, immediately issuing a best-effort `set_level(1)`. -/
def overheatStep (cfg : SupConfig) (now : ℚ) (st : SupState)
    (result : Snapshot) : SupState × List Pub × List BleCmd :=
  if st.overheat_active then
    let lockct :
        SupState × ℚ :=
      if result.case_temperature > st.overheat_last_temp + 2 then
        let st := { st with
          overheat_temp_rising_count := st.overheat_temp_rising_count + 1 }
        if st.overheat_temp_rising_count ≥ 3 then (st, overheat_extended_lockout)
        else (st, overheat_lockout_time)
      else (st, overheat_lockout_time)
    let st := { lockct.1 with overheat_last_temp := result.case_temperature }
    let elapsed := now - st.overheat_start_time
    if elapsed ≥ lockct.2 then
      ({ st with overheat_active := false, overheat_temp_rising_count := 0 },
       [Pub.overheatInactive], [])
    else (st, [], [])
  else if result.case_temperature ≥ cfg.overheat_threshold then
    ({ st with overheat_active := true
               overheat_start_time := now
               overheat_last_temp := result.case_temperature
               overheat_temp_rising_count := 0 },
     [Pub.overheatActiveTemp result.case_temperature],
     [BleCmd.setLevel 1])
  else (st, [], [])

/-- The successful-poll branch of the main loop, src/main.py lines 619-707
(`result is not None`): record the poll, update the tracked temperature and
level, then run the three policy blocks in source order and finish with
`dispatch_result(result)`. Debug-log statements are omitted. -/
def pollSuccess (cfg : SupConfig) (now : ℚ) (st : SupState)
    (result : Snapshot) : SupState × List Pub × List BleCmd :=
  let st := { st with
    last_successful_poll := now
    consecutive_failures := 0
    current_case_temperature := result.case_temperature
    current_heater_level := result.set_level }
  let s1 := tempLimitStep cfg st
  let s2 := error5Step now s1.1 result
  let s3 := overheatStep cfg now s2.1 result
  (s3.1, s1.2 ++ s2.2 ++ s3.2.1 ++ [Pub.dispatched result], s3.2.2)

/-- The failed-poll branch, src/main.py lines 708-718 (`result is None`):
count the failure; the returned flag records whether the
`RuntimeError("Device not responding - forcing reconnect")` is raised. -/
def pollFailure (st : SupState) : SupState × Bool :=
  let st := { st with consecutive_failures := st.consecutive_failures + 1 }
  (st, decide (st.consecutive_failures ≥ max_consecutive_failures))

/-- The `except BTLEDisconnectError` handler, src/main.py lines 743-764. -/
def handleBTLEDisconnect (st : SupState) : SupState × List Pub :=
  let st := { st with vdh_connected := false, system_state := "Disconnected" }
  let pubs := [Pub.status "Disconnected"]
  let st := { st with reconnect_attempt := st.reconnect_attempt + 1 }
  if st.reconnect_attempt ≥ max_reconnect_attempts then
    ({ st with system_state := "Connection Failed", reconnect_attempt := 0 },
     pubs ++ [Pub.status "Connection Failed"])
  else (st, pubs)

/-- The `except TimeoutError` handler, src/main.py lines 766-774. -/
def handleTimeout (st : SupState) : SupState × List Pub :=
  let st := { st with vdh_connected := false, system_state := "Timeout" }
  (st, [Pub.status "Timeout"])

/-- The `except RuntimeError` handler (watchdog and runtime errors),
src/main.py lines 776-787. -/
def handleRuntimeError (st : SupState) : SupState × List Pub :=
  let st := { st with vdh_connected := false,
                      system_state := "Watchdog Triggered" }
  ({ st with consecutive_failures := 0 }, [Pub.status "Watchdog Triggered"])

/-- The final `except Exception` handler, src/main.py lines 789-799. -/
def handleUnexpected (st : SupState) : SupState × List Pub :=
  let st := { st with vdh_connected := false, system_state := "Error" }
  ({ st with consecutive_failures := 0 }, [Pub.status "Error"])

/-! ## Command handling: `on_message`, src/main.py lines 435-507 -/

/-- The subscribed command topics (src/main.py lines 334-341). -/
inductive Topic
  | startCmd
  | stopCmd
  | levelCmd
  | temperatureCmd
  | modeCmd
deriving Repr, DecidableEq

/-- What an `on_message` invocation does before any BLE errors can occur. -/
inductive MsgAction
  | ignoredDisconnected
  | blockedLockout (remaining : ℚ)
  | busy
  | skippedRedundant (level : Int)
  | send (c : BleCmd)
deriving Repr, DecidableEq

/-- Is the topic one of the three blocked during an overheat lockout
(src/main.py line 449)? -/
def gatedTopic (t : Topic) : Bool :=
  match t with
  | .levelCmd => true
  | .temperatureCmd => true
  | .modeCmd => true
  | _ => false

/-- `on_message` (src/main.py lines 435-507) up to the first BLE call.
`payload` is the integer payload of level/temperature commands and the
already-translated `modes.index(...) + 1` value for mode commands;
`lockAcquired` is the outcome of `ble_lock.acquire(timeout=5)`. The
Python early returns become nested conditionals. The write to the
log-rate-limit variable `last_level_limit_warning` is omitted (it only
gates a log line). -/
def on_message (st : SupState) (cfg : SupConfig) (now : ℚ) (topic : Topic)
    (payload : Int) (lockAcquired : Bool) : MsgAction :=
  if ¬ st.vdh_connected then .ignoredDisconnected
  else
    let time_remaining := overheat_lockout_time - (now - st.overheat_start_time)
    if st.overheat_active ∧ time_remaining > 0 ∧ gatedTopic topic then
      .blockedLockout time_remaining
    else if ¬ lockAcquired then .busy
    else
      match topic with
      | .startCmd => .send .start
      | .stopCmd => .send .stop
      | .levelCmd =>
        let requested := payload
        let max_allowed :=
          get_max_allowed_level cfg.temp_limiting_enabled
            cfg.overheat_threshold st.current_case_temperature
        let requested :=
          if requested > max_allowed then max_allowed else requested
        if requested = st.current_heater_level then .skippedRedundant requested
        else .send (.setLevel requested)
      | .temperatureCmd => .send (.setLevel payload)
      | .modeCmd => .send (.setMode payload)

/-! ## Concurrency model: `ble_lock` discipline

Two execution contexts touch the `DieselHeater` object: the main poll loop
and the pub/sub delivery thread running `on_message`. Each context is
modelled by the sequence of observable events it emits (lock transitions,
BLE operations on the shared link, publishes); an execution of the system
is an order-preserving interleaving of the two sequences that respects the
lock semantics. -/

/-- The two execution contexts of src/main.py. -/
inductive Tid
  | poll
  | handler
deriving Repr, DecidableEq

/-- BLE operations on the shared link object, including session management. -/
inductive BleOp
  | request (c : BleCmd)
  | connect
  | disconnect
deriving Repr, DecidableEq

/-- Observable events of one execution context. -/
inductive Ev
  | acquire (t : Tid)
  | release (t : Tid)
  | ble (t : Tid) (op : BleOp)
  | publish (t : Tid) (p : Pub)
deriving Repr, DecidableEq

/-- Lock semantics, tracking the current holder: a thread may acquire only
when nobody holds the lock and release only what it holds. Traces that
violate this cannot occur, since `threading.Lock` blocks instead. -/
def validLockFrom (h : Option Tid) : List Ev → Bool
  | [] => true
  | Ev.acquire t :: r => decide (h = none) && validLockFrom (some t) r
  | Ev.release t :: r => decide (h = some t) && validLockFrom none r
  | Ev.ble _ _ :: r => validLockFrom h r
  | Ev.publish _ _ :: r => validLockFrom h r

/-- Every BLE operation in the trace is performed by the thread currently
holding the lock: the serialization property the spec demands. -/
def bleSerializedFrom (h : Option Tid) : List Ev → Bool
  | [] => true
  | Ev.acquire t :: r => bleSerializedFrom (some t) r
  | Ev.release _ :: r => bleSerializedFrom none r
  | Ev.ble t _ :: r => decide (h = some t) && bleSerializedFrom h r
  | Ev.publish _ _ :: r => bleSerializedFrom h r

/-- A single context respects the lock discipline locally: it only emits a
BLE operation while it believes it holds the lock, never re-acquires while
holding, and never releases without holding. `held` is the context's own
view. -/
def locallyLocked (held : Bool) : List Ev → Bool
  | [] => true
  | Ev.acquire _ :: r => !held && locallyLocked true r
  | Ev.release _ :: r => held && locallyLocked false r
  | Ev.ble _ _ :: r => held && locallyLocked held r
  | Ev.publish _ _ :: r => locallyLocked held r

/-- Every event of the trace is tagged with the given thread id. -/
def ownedBy (t : Tid) : List Ev → Bool
  | [] => true
  | Ev.acquire u :: r => decide (u = t) && ownedBy t r
  | Ev.release u :: r => decide (u = t) && ownedBy t r
  | Ev.ble u _ :: r => decide (u = t) && ownedBy t r
  | Ev.publish u _ :: r => decide (u = t) && ownedBy t r

/-- Order-preserving interleaving of two event sequences. -/
inductive IsInterleaving : List Ev → List Ev → List Ev → Prop
  | nil : IsInterleaving [] [] []
  | left {e : Ev} {l r tr : List Ev} :
      IsInterleaving l r tr → IsInterleaving (e :: l) r (e :: tr)
  | right {e : Ev} {l r tr : List Ev} :
      IsInterleaving l r tr → IsInterleaving l (e :: r) (e :: tr)

/-! Event sequences emitted by the code paths of src/main.py. -/

/-- The poll-loop body on a normal iteration with a live link
(src/main.py lines 614-616 and, when the overheat guard is entered via the
temperature branch, lines 700-705): each BLE exchange happens inside a
`with ble_lock` block. `entersOverheat` selects whether the
`vdh.set_level(1)` region is executed. -/
def pollIterationTrace (entersOverheat : Bool) : List Ev :=
  [Ev.acquire .poll, Ev.ble .poll (.request .getStatus), Ev.release .poll] ++
  (if entersOverheat then
    [Ev.acquire .poll, Ev.ble .poll (.request (.setLevel 1)),
     Ev.release .poll]
  else [])

/-- The reconnect branch of the poll loop (src/main.py line 602):
`vevor.DieselHeater(...)` opens the BLE session with no lock held. -/
def pollReconnectTrace : List Ev :=
  [Ev.ble .poll .connect]

/-- A recovery handler of the poll loop (src/main.py lines 743-799):
`cleanup_ble_device(vdh)` calls `device.disconnect()` with no lock held,
then a status string is published. -/
def pollRecoveryTrace (msg : String) : List Ev :=
  [Ev.ble .poll .disconnect, Ev.publish .poll (Pub.status msg)]

/-- The command-handler thread when `ble_lock.acquire(timeout=5)` succeeds
and the chosen command results in the BLE call `c` (src/main.py lines
457-507): the call happens between acquire and the `finally` release. -/
def handlerSendTrace (c : BleCmd) : List Ev :=
  [Ev.acquire .handler, Ev.ble .handler (.request c), Ev.release .handler]

/-- The command-handler thread when the anti-spam check skips the send:
the lock is still acquired and released around the (empty) body. -/
def handlerSkipTrace : List Ev :=
  [Ev.acquire .handler, Ev.release .handler]

/-- The command-handler thread when `ble_lock.acquire(timeout=5)` times
out (src/main.py lines 457-461): publish the busy notice and return. -/
def handlerBusyTrace : List Ev :=
  [Ev.publish .handler (Pub.status "Command skipped: BLE busy")]

/-- The trace contains no BLE event at all. -/
def noBle : List Ev → Bool
  | [] => true
  | Ev.ble _ _ :: _ => false
  | _ :: r => noBle r

/-- The trace contains no acquire event. -/
def noAcquire : List Ev → Bool
  | [] => true
  | Ev.acquire _ :: _ => false
  | _ :: r => noAcquire r

/-- A concrete Standard-header frame: running state 1, error 9, step 3,
altitude 10000, mode 2, temperature setpoint 30, level byte 4, supply
voltage 12.0, case temperature bytes 0xFFFF, cab temperature 1. -/
def jeC4 : List Nat :=
  [170, 85, 0, 1, 9, 3, 16, 39, 2, 30, 4, 120, 0, 255, 255, 1, 0]

/-- The snapshot `jeC4` decodes to. -/
def snapC4 : Snapshot :=
  { running_state := 1
    error := 9
    error_msg := some "Overheating"
    running_step := 3
    running_step_msg := "Running"
    altitude := 10000
    running_mode := 2
    set_level := 5
    set_temperature := some 30
    supply_voltage := ((120 : ℤ) : ℚ) / 10
    case_temperature := -1
    cab_temperature := 1
    md := 1 }

/-- A concrete Alternate-header frame: running state 1, step 3, altitude
10000, mode 1, level 7, supply voltage 12.0, case temperature bytes
0x8000, cab temperature bytes 0xFFFF, error byte 17 = 5 ("Overheating" in
the Alternate table). -/
def jeC4alt : List Nat :=
  [170, 102, 0, 1, 0, 3, 16, 39, 1, 7, 0, 120, 0, 0, 128, 255, 255, 5]

/-- The snapshot `jeC4alt` decodes to. -/
def snapC4alt : Snapshot :=
  { running_state := 1
    error := 5
    error_msg := some "Overheating"
    running_step := 3
    running_step_msg := "Running"
    altitude := 10000
    running_mode := 1
    set_level := 7
    set_temperature := none
    supply_voltage := ((120 : ℤ) : ℚ) / 10
    case_temperature := -32768
    cab_temperature := -1
    md := 3 }

/-- The level-cap/overheat configuration used by the concrete supervisor
scenarios: defaults `OVERHEAT_THRESHOLD = 256`, limiting enabled. -/
def cfgDefault : SupConfig :=
  { overheat_threshold := 256, temp_limiting_enabled := true }

/-- A baseline supervisor state: link up, guard inactive, no limiting. -/
def baseState : SupState :=
  { vdh_connected := true
    overheat_active := false
    overheat_start_time := 0
    overheat_last_temp := 0
    overheat_temp_rising_count := 0
    last_max_allowed_level := 36
    current_case_temperature := 20
    current_heater_level := 5
    consecutive_failures := 0
    last_successful_poll := 0
    reconnect_attempt := 0
    failed_reconnects_total := 0
    system_state := "Connected" }

/-- A concrete Standard-header frame reporting error code 5 with a cool
case temperature (20): byte 4 = 5, mode 1, level 5. -/
def jeC1 : List Nat :=
  [170, 85, 0, 1, 5, 3, 0, 0, 1, 5, 0, 120, 0, 20, 0, 18, 0]

/-- The snapshot `jeC1` decodes to: in the Standard table error 5 resolves
to "Inlet sensor fault", not "Overheating" (which is error 9). -/
def snapC1 : Snapshot :=
  { running_state := 1
    error := 5
    error_msg := some "Inlet sensor fault"
    running_step := 3
    running_step_msg := "Running"
    altitude := 0
    running_mode := 1
    set_level := 5
    set_temperature := none
    supply_voltage := ((120 : ℤ) : ℚ) / 10
    case_temperature := 20
    cab_temperature := 18
    md := 1 }

/-- A snapshot reporting level 10 at case temperature 255 with no error:
the cap computed from it is 2 while the reported level is 10. -/
def snapC2 : Snapshot :=
  { running_state := 1
    error := 0
    error_msg := some "No fault"
    running_step := 3
    running_step_msg := "Running"
    altitude := 0
    running_mode := 1
    set_level := 10
    set_temperature := none
    supply_voltage := 12
    case_temperature := 255
    cab_temperature := 20
    md := 1 }

/-- A healthy snapshot at the given case temperature (used by the overheat
lockout scenario). -/
def snapTemp (t : Int) : Snapshot :=
  { running_state := 1
    error := 0
    error_msg := some "No fault"
    running_step := 3
    running_step_msg := "Running"
    altitude := 0
    running_mode := 1
    set_level := 5
    set_temperature := none
    supply_voltage := 12
    case_temperature := t
    cab_temperature := 20
    md := 1 }

/-- Overheat-lockout scenario, poll 1 (t = 0): temperature 256 reaches the
threshold, the guard enters. -/
def c7r1 : SupState × List Pub × List BleCmd :=
  pollSuccess cfgDefault 0 baseState (snapTemp 256)

/-- Poll 2 (t = 2): 259 > 256 + 2, first rising event. -/
def c7r2 : SupState × List Pub × List BleCmd :=
  pollSuccess cfgDefault 2 c7r1.1 (snapTemp 259)

/-- Poll 3 (t = 4): 262 > 259 + 2, second rising event. -/
def c7r3 : SupState × List Pub × List BleCmd :=
  pollSuccess cfgDefault 4 c7r2.1 (snapTemp 262)

/-- Poll 4 (t = 6): 265 > 262 + 2, third rising event — the extended
lockout applies on this poll. -/
def c7r4 : SupState × List Pub × List BleCmd :=
  pollSuccess cfgDefault 6 c7r3.1 (snapTemp 265)

/-- Poll 5 (t = 70): the temperature is flat, so the local lockout resets
to the 60-second default and the guard exits at 70 s even though only 70 of
the extended 300 seconds have elapsed. -/
def c7r5 : SupState × List Pub × List BleCmd :=
  pollSuccess cfgDefault 70 c7r4.1 (snapTemp 265)

/-- The rising-event count after one active-guard poll: incremented when
the case temperature rose by more than 2 degrees over the last recorded
one (src/main.py lines 669-670). -/
def risingCountAfter (st : SupState) (result : Snapshot) : Int :=
  if result.case_temperature > st.overheat_last_temp + 2 then
    st.overheat_temp_rising_count + 1
  else st.overheat_temp_rising_count

/-- The lockout duration an active-guard poll actually compares against
(src/main.py lines 666-676): the extended 300 s only on a poll whose own
temperature reading rose by more than 2 degrees with the rising count (after
increment) at 3 or more; otherwise the 60 s default. -/
def effectiveLockout (st : SupState) (result : Snapshot) : ℚ :=
  if result.case_temperature > st.overheat_last_temp + 2 ∧
      risingCountAfter st result ≥ 3 then
    overheat_extended_lockout
  else overheat_lockout_time

/-- An active guard that entered at t = 0 and has already counted three
rising events, with the last recorded temperature 265. -/
def stC7w : SupState :=
  { baseState with
      overheat_active := true
      overheat_start_time := 0
      overheat_last_temp := 265
      overheat_temp_rising_count := 3 }

/-- A supervisor state whose tracked case temperature 255 caps the level at
2 and whose last known heater level is 2. -/
def stC6 : SupState :=
  { baseState with current_case_temperature := 255, current_heater_level := 2 }

/-- A trace the system can produce: the command handler holds the lock for
a `set_level` exchange while the poll thread, in a recovery handler, calls
`disconnect()` on the same link with no lock held
(`cleanup_ble_device`, src/main.py line 747). -/
def c9CexTrace : List Ev :=
  [Ev.acquire .handler, Ev.ble .handler (.request (.setLevel 5)),
   Ev.ble .poll .disconnect, Ev.publish .poll (Pub.status "Disconnected"),
   Ev.release .handler]

/-- A trace of a plain poll iteration interleaved with a busy-path command
handler (used as a witness). -/
def c9WitnessTrace : List Ev :=
  [Ev.acquire .poll, Ev.ble .poll (.request .getStatus), Ev.release .poll,
   Ev.publish .handler (Pub.status "Command skipped: BLE busy")]

/-! ## Helper lemmas -/

lemma fetch_eq_ok {α : Type} {o : Option α} {b : α} :
    fetch o = .ok b ↔ o = some b := by
  cases o <;> simp [fetch, Option.elim]

lemma except_bind_ok {α β : Type} {x : Except DecodeError α}
    {f : α → Except DecodeError β} {b : β} :
    (x >>= f) = .ok b ↔ ∃ a, x = .ok a ∧ f a = .ok b := by
  cases x <;> simp [Bind.bind, Except.bind]

lemma u8_coe (b : Nat) : _u8tonumber (b : Int) = (b : Int) := by
  unfold _u8tonumber
  rw [if_neg (Int.not_lt.mpr (Int.natCast_nonneg b))]

lemma byteVal_of_range {v : Int} (h0 : 0 ≤ v) (h1 : v < 256) :
    byteVal v = some v := by
  unfold byteVal
  exact if_pos ⟨h0, h1⟩

lemma tempLimitStep_fst (cfg : SupConfig) (st : SupState) :
    (tempLimitStep cfg st).1 =
      { st with last_max_allowed_level :=
                  get_max_allowed_level cfg.temp_limiting_enabled
                    cfg.overheat_threshold st.current_case_temperature } := by
  unfold tempLimitStep
  dsimp only
  by_cases h : get_max_allowed_level cfg.temp_limiting_enabled
      cfg.overheat_threshold st.current_case_temperature ≠
      st.last_max_allowed_level
  · rw [if_pos h]
  · rw [if_neg h]
    have h2 : get_max_allowed_level cfg.temp_limiting_enabled
        cfg.overheat_threshold st.current_case_temperature =
        st.last_max_allowed_level := by omega
    rw [h2]

lemma tempLimitStep_snd (cfg : SupConfig) (st : SupState) :
    (tempLimitStep cfg st).2 =
      (if get_max_allowed_level cfg.temp_limiting_enabled
            cfg.overheat_threshold st.current_case_temperature ≠
          st.last_max_allowed_level then
        (if get_max_allowed_level cfg.temp_limiting_enabled
              cfg.overheat_threshold st.current_case_temperature < 36 then
          [Pub.tempLimitActive
            (get_max_allowed_level cfg.temp_limiting_enabled
              cfg.overheat_threshold st.current_case_temperature)]
        else if st.last_max_allowed_level < 36 then [Pub.tempLimitInactive]
        else [])
      else []) := by
  unfold tempLimitStep
  dsimp only
  split_ifs <;> rfl

lemma error5Step_eq (now : ℚ) (st : SupState) (result : Snapshot) :
    error5Step now st result =
      if result.error = 5 ∧ st.overheat_active = false then
        ({ st with overheat_active := true
                   overheat_start_time := now
                   overheat_last_temp := result.case_temperature
                   overheat_temp_rising_count := 0 },
         [Pub.overheatActiveError5])
      else (st, []) := by
  unfold error5Step
  split_ifs <;> first | rfl | simp_all

lemma overheatStep_eq (cfg : SupConfig) (now : ℚ) (st : SupState)
    (result : Snapshot) :
    overheatStep cfg now st result =
      (if st.overheat_active = true then
        (if now - st.overheat_start_time ≥ effectiveLockout st result then
          ({ st with overheat_active := false
                     overheat_last_temp := result.case_temperature
                     overheat_temp_rising_count := 0 },
           [Pub.overheatInactive], [])
        else
          ({ st with overheat_last_temp := result.case_temperature
                     overheat_temp_rising_count := risingCountAfter st result },
           [], []))
      else if result.case_temperature ≥ cfg.overheat_threshold then
        ({ st with overheat_active := true
                   overheat_start_time := now
                   overheat_last_temp := result.case_temperature
                   overheat_temp_rising_count := 0 },
         [Pub.overheatActiveTemp result.case_temperature],
         [BleCmd.setLevel 1])
      else (st, [], [])) := by
  unfold overheatStep effectiveLockout risingCountAfter
  dsimp only
  split_ifs <;> first | rfl | tauto

lemma effectiveLockout_pos (st : SupState) (result : Snapshot) :
    0 < effectiveLockout st result := by
  unfold effectiveLockout overheat_lockout_time overheat_extended_lockout
  split_ifs <;> norm_num

/-! ## Claim C3 -/

/-- Claim C3 counterexample: encoding is not total. With the default
passkey 1234, opcode 255, argument 65535 and sequence tag 85, the checksum
assignment `o[7] = o[2]+o[3]+o[4]+o[5]+o[6]` computes 12+34+255+255+255 =
811, which a Python bytearray item assignment rejects with `ValueError`
(there is no `mod 256` in src/vevor.py line 215), so `_send_command`
raises instead of producing a frame. -/
theorem encode_totality_counterexample :
    _send_command_frame 1234 255 65535 85 0 0 = none := by decide

/-- Claim C3 (amended): with sequence tag 85, a passkey in [0, 25600), any
opcode, and an argument in [0, 65536) such that the checksum sum
`keyHi + keyLo + opcode%256 + argLow + argHigh` fits in a byte, encoding
succeeds; the opcode is taken mod 256, the argument is split little-endian
into bytes 5 and 6, and byte 7 equals the sum of bytes 2 to 6, which under
the stated bound coincides with that sum mod 256 (the checksum is
recomputed from the other bytes, never taken from input). Outside these
bounds the bytearray assignments of src/vevor.py lines 212-215 raise, so
encoding is not total. -/
theorem encode_characterization (passkey command argument : Int)
    (hp0 : 0 ≤ passkey) (hp1 : passkey < 25600)
    (ha0 : 0 ≤ argument) (ha1 : argument < 65536)
    (hsum : pyFloorDiv passkey 100 + pyMod passkey 100 + pyMod command 256 +
      pyMod argument 256 + pyFloorDiv argument 256 ≤ 255) :
    _send_command_frame passkey command argument 85 0 0 =
      some [170, 85, pyFloorDiv passkey 100, pyMod passkey 100,
        pyMod command 256, pyMod argument 256, pyFloorDiv argument 256,
        pyFloorDiv passkey 100 + pyMod passkey 100 + pyMod command 256 +
          pyMod argument 256 + pyFloorDiv argument 256] ∧
    argument = pyMod argument 256 + 256 * pyFloorDiv argument 256 ∧
    pyMod (pyFloorDiv passkey 100 + pyMod passkey 100 + pyMod command 256 +
        pyMod argument 256 + pyFloorDiv argument 256) 256 =
      pyFloorDiv passkey 100 + pyMod passkey 100 + pyMod command 256 +
        pyMod argument 256 + pyFloorDiv argument 256 := by
  unfold pyMod pyFloorDiv at *
  have e1 : byteVal (85 : Int) = some 85 := by decide
  have e2 : byteVal (passkey / 100) = some (passkey / 100) :=
    byteVal_of_range (by omega) (by omega)
  have e3 : byteVal (passkey % 100) = some (passkey % 100) :=
    byteVal_of_range (by omega) (by omega)
  have e4 : byteVal (command % 256) = some (command % 256) :=
    byteVal_of_range (by omega) (by omega)
  have e5 : byteVal (argument % 256) = some (argument % 256) :=
    byteVal_of_range (by omega) (by omega)
  have e6 : byteVal (argument / 256) = some (argument / 256) :=
    byteVal_of_range (by omega) (by omega)
  have e7 : byteVal (passkey / 100 + passkey % 100 + command % 256 +
      argument % 256 + argument / 256) =
      some (passkey / 100 + passkey % 100 + command % 256 +
        argument % 256 + argument / 256) :=
    byteVal_of_range (by omega) (by omega)
  refine ⟨?_, by omega, by omega⟩
  unfold _send_command_frame pyMod pyFloorDiv
  rw [if_neg (by decide : ¬ (85 : Int) = 136),
    if_neg (by decide : ¬ (85 : Int) = 136)]
  simp [e1, e2, e3, e4, e5, e6, e7]

/-- Witness for Claim C3 (amended): the `get_status` frame with the default
passkey 1234 (`_send_command(1, 0, 85)`). -/
theorem encode_characterization_witness :
    _send_command_frame 1234 1 0 85 0 0 =
      some [170, 85, 12, 34, 1, 0, 0, 47] := by
  have h := encode_characterization 1234 1 0 (by decide) (by decide)
    (by decide) (by decide) (by decide)
  exact h.1

/-! ## Claim C5 -/

/-- Claim C5: when the characteristic write succeeds and the 1-second
`waitForNotifications` returns (the link does not drop) with no
notification delivered, `_send_command` returns `None` — a soft miss, not
a raised error (src/vevor.py lines 229-237). -/
theorem sendCommand_soft_miss (w : WriteResult) (wait : WaitResult) (b : Bool)
    (hw : w = .ok) (hwait : wait = .returned b) :
    sendCommandOutcome w wait none = .ok none := by
  subst hw hwait
  cases b <;> rfl

/-- Witness for Claim C5: `waitForNotifications` returned `False` and the
mailbox stayed empty. -/
theorem sendCommand_soft_miss_witness :
    sendCommandOutcome .ok (.returned false) none = .ok none :=
  sendCommand_soft_miss .ok (.returned false) false rfl rfl

/-! ## Claim C8 -/

/-- Claim C8: with limiting enabled and `overheat_threshold = 256`,
`get_max_allowed_level` realises the documented table —
`256 ↦ 1`, `255 ↦ 2`, `253 ↦ 4`, `251 ↦ 6`, `248 ↦ 8`, `245 ↦ 10` and
`36` below 245 — it is a decreasing (antitone) step function of the
temperature for any threshold, and with the `TEMP_LEVEL_LIMITING` flag off
it returns 36 for every temperature. -/
theorem levelCap_table :
    get_max_allowed_level true 256 256 = 1 ∧
    get_max_allowed_level true 256 255 = 2 ∧
    get_max_allowed_level true 256 253 = 4 ∧
    get_max_allowed_level true 256 251 = 6 ∧
    get_max_allowed_level true 256 248 = 8 ∧
    get_max_allowed_level true 256 245 = 10 ∧
    (∀ t : Int, t < 245 → get_max_allowed_level true 256 t = 36) ∧
    (∀ threshold t u : Int, t ≤ u →
      get_max_allowed_level true threshold u ≤
        get_max_allowed_level true threshold t) ∧
    (∀ threshold t : Int, get_max_allowed_level false threshold t = 36) := by
  have expand : ∀ threshold t : Int, get_max_allowed_level true threshold t =
      (if t ≥ threshold then 1
       else if t ≥ threshold - 1 then 2
       else if t ≥ threshold - 3 then 4
       else if t ≥ threshold - 5 then 6
       else if t ≥ threshold - 8 then 8
       else if t ≥ threshold - 11 then 10
       else 36) := fun _ _ => rfl
  refine ⟨by decide, by decide, by decide, by decide, by decide, by decide,
    ?_, ?_, ?_⟩
  · intro t ht
    rw [expand]
    split_ifs <;> omega
  · intro threshold t u htu
    rw [expand, expand]
    split_ifs <;> omega
  · intro threshold t
    rfl

/-- Witness for Claim C8: the quantified parts evaluated at concrete
temperatures 200 and the pair (250, 254). -/
theorem levelCap_table_witness :
    get_max_allowed_level true 256 200 = 36 ∧
    get_max_allowed_level true 256 254 ≤ get_max_allowed_level true 256 250 ∧
    get_max_allowed_level false 256 300 = 36 :=
  ⟨levelCap_table.2.2.2.2.2.2.1 200 (by decide),
   levelCap_table.2.2.2.2.2.2.2.1 256 250 254 (by decide),
   levelCap_table.2.2.2.2.2.2.2.2 256 300⟩

/-! ## Claim C4 -/

/-- Claim C4: for frames with a supported header (0xAA,0x55 Standard or
0xAA,0x66 Alternate) that decode to a snapshot, the fields sit at the fixed
offsets — runningState byte 3, errorCode byte 4 (Standard) / byte 17
(Alternate), runningStep byte 5, altitude LE16 bytes 6-7, runningMode
byte 8, supply voltage LE16/10 bytes 11-12, case/cab temperatures signed
two's-complement LE16 bytes 13-14 / 15-16 (a 16-bit value ≥ 32768 yields
value − 65536), setLevel/setTemperature mode-dependent (mode 0: level =
byte10+1, no temperature; mode 1: level = byte9, no temperature; mode 2:
temperature = byte9 and level = byte10+1) — while a runningMode outside
0/1/2 never yields a snapshot and the Extended header 0xAA,0x88 fails with
an error. -/
theorem decode_field_offsets :
    (∀ (je : List Nat) (s : Snapshot)
      (b3 b4 b5 b6 b7 b8 b9 b10 b11 b12 b13 b14 b15 b16 : Nat),
      decodeNotification je = .ok s →
      je.get? 1 = some 85 →
      je.get? 3 = some b3 → je.get? 4 = some b4 → je.get? 5 = some b5 →
      je.get? 6 = some b6 → je.get? 7 = some b7 → je.get? 8 = some b8 →
      je.get? 9 = some b9 → je.get? 10 = some b10 → je.get? 11 = some b11 →
      je.get? 12 = some b12 → je.get? 13 = some b13 → je.get? 14 = some b14 →
      je.get? 15 = some b15 → je.get? 16 = some b16 →
      s.running_state = b3 ∧ s.error = b4 ∧ s.running_step = b5 ∧
      s.altitude = b6 + 256 * b7 ∧ s.running_mode = b8 ∧
      s.supply_voltage = ((256 * b12 + b11 : ℤ) : ℚ) / 10 ∧
      s.case_temperature =
        (if 32768 ≤ 256 * (b14 : ℤ) + (b13 : ℤ)
         then 256 * (b14 : ℤ) + (b13 : ℤ) - 65536
         else 256 * (b14 : ℤ) + (b13 : ℤ)) ∧
      s.cab_temperature =
        (if 32768 ≤ 256 * (b16 : ℤ) + (b15 : ℤ)
         then 256 * (b16 : ℤ) + (b15 : ℤ) - 65536
         else 256 * (b16 : ℤ) + (b15 : ℤ)) ∧
      (b8 = 0 → s.set_level = b10 + 1 ∧ s.set_temperature = none) ∧
      (b8 = 1 → s.set_level = b9 ∧ s.set_temperature = none) ∧
      (b8 = 2 → s.set_temperature = some (b9 : ℤ) ∧ s.set_level = b10 + 1)) ∧
    (∀ (je : List Nat) (s : Snapshot)
      (b3 b5 b6 b7 b8 b9 b10 b11 b12 b13 b14 b15 b16 b17 : Nat),
      decodeNotification je = .ok s →
      je.get? 1 = some 102 →
      je.get? 3 = some b3 → je.get? 5 = some b5 → je.get? 6 = some b6 →
      je.get? 7 = some b7 → je.get? 8 = some b8 → je.get? 9 = some b9 →
      je.get? 10 = some b10 → je.get? 11 = some b11 → je.get? 12 = some b12 →
      je.get? 13 = some b13 → je.get? 14 = some b14 → je.get? 15 = some b15 →
      je.get? 16 = some b16 → je.get? 17 = some b17 →
      s.running_state = b3 ∧ s.error = b17 ∧ s.running_step = b5 ∧
      s.altitude = b6 + 256 * b7 ∧ s.running_mode = b8 ∧
      s.supply_voltage = ((256 * b12 + b11 : ℤ) : ℚ) / 10 ∧
      s.case_temperature =
        (if 32768 ≤ 256 * (b14 : ℤ) + (b13 : ℤ)
         then 256 * (b14 : ℤ) + (b13 : ℤ) - 65536
         else 256 * (b14 : ℤ) + (b13 : ℤ)) ∧
      s.cab_temperature =
        (if 32768 ≤ 256 * (b16 : ℤ) + (b15 : ℤ)
         then 256 * (b16 : ℤ) + (b15 : ℤ) - 65536
         else 256 * (b16 : ℤ) + (b15 : ℤ)) ∧
      (b8 = 0 → s.set_level = b10 + 1 ∧ s.set_temperature = none) ∧
      (b8 = 1 → s.set_level = b9 ∧ s.set_temperature = none) ∧
      (b8 = 2 → s.set_temperature = some (b9 : ℤ) ∧ s.set_level = b10 + 1)) ∧
    (∀ (je : List Nat) (b8 : Nat) (s : Snapshot),
      je.get? 0 = some 170 →
      (je.get? 1 = some 85 ∨ je.get? 1 = some 102) →
      je.get? 8 = some b8 → b8 ≠ 0 → b8 ≠ 1 → b8 ≠ 2 →
      decodeNotification je ≠ .ok s) ∧
    (∀ je : List Nat, je.get? 0 = some 170 → je.get? 1 = some 136 →
      decodeNotification je = .error .unsupportedPayload) := by
  refine ⟨?_, ?_, ?_, ?_⟩
  · intro je s b3 b4 b5 b6 b7 b8 b9 b10 b11 b12 b13 b14 b15 b16 hok h1
      h3 h4 h5 h6 h7 h8 h9 h10 h11 h12 h13 h14 h15 h16
    unfold decodeNotification at hok
    simp only [except_bind_ok, fetch_eq_ok] at hok
    obtain ⟨b0, hb0, b1, hb1, hok⟩ := hok
    rw [h1, Option.some.injEq] at hb1
    subst hb1
    simp only [u8_coe] at hok
    by_cases hb : (170 : ℤ) = (b0 : ℤ)
    · rw [if_pos ⟨hb, rfl⟩] at hok
      unfold decodeStdBody at hok
      simp only [except_bind_ok, fetch_eq_ok, Except.ok.injEq] at hok
      obtain ⟨c3, hc3, c4, hc4, c5, hc5, c6, hc6, c7, hc7, c8, hc8, c9, hc9,
        c10, hc10, c11, hc11, c12, hc12, c13, hc13, c14, hc14, c15, hc15,
        c16, hc16, emsg, hemsg, smsg, hsmsg, p, hp, hfin⟩ := hok
      rw [h3, Option.some.injEq] at hc3
      rw [h4, Option.some.injEq] at hc4
      rw [h5, Option.some.injEq] at hc5
      rw [h6, Option.some.injEq] at hc6
      rw [h7, Option.some.injEq] at hc7
      rw [h8, Option.some.injEq] at hc8
      rw [h9, Option.some.injEq] at hc9
      rw [h10, Option.some.injEq] at hc10
      rw [h11, Option.some.injEq] at hc11
      rw [h12, Option.some.injEq] at hc12
      rw [h13, Option.some.injEq] at hc13
      rw [h14, Option.some.injEq] at hc14
      rw [h15, Option.some.injEq] at hc15
      rw [h16, Option.some.injEq] at hc16
      subst hc3 hc4 hc5 hc6 hc7 hc8 hc9 hc10 hc11 hc12 hc13 hc14 hc15 hc16
      subst hfin
      refine ⟨by simp [u8_coe], by simp [u8_coe], by simp [u8_coe],
        by simp [u8_coe], by simp [u8_coe], by simp [u8_coe],
        ?_, ?_, ?_, ?_, ?_⟩
      · show _UnsignToSign (256 * (b14 : ℤ) + (b13 : ℤ)) = _
        unfold _UnsignToSign
        split_ifs <;> omega
      · show _UnsignToSign (256 * (b16 : ℤ) + (b15 : ℤ)) = _
        unfold _UnsignToSign
        split_ifs <;> omega
      · intro h0
        subst h0
        have hp0 : modeSelect 0 b9 b10 = Except.ok ((b10 : ℤ) + 1, none) := by
          unfold modeSelect
          rw [show _u8tonumber ((0 : Nat) : ℤ) = 0 from rfl]
          rw [if_pos rfl, u8_coe]
        rw [hp0, Except.ok.injEq] at hp
        subst hp
        exact ⟨rfl, rfl⟩
      · intro h0
        subst h0
        have hp1 : modeSelect 1 b9 b10 = Except.ok ((b9 : ℤ), none) := by
          unfold modeSelect
          rw [show _u8tonumber ((1 : Nat) : ℤ) = 1 from rfl]
          rw [if_neg (by decide), if_pos rfl, u8_coe]
        rw [hp1, Except.ok.injEq] at hp
        subst hp
        exact ⟨rfl, rfl⟩
      · intro h0
        subst h0
        have hp2 : modeSelect 2 b9 b10 =
            Except.ok ((b10 : ℤ) + 1, some (b9 : ℤ)) := by
          unfold modeSelect
          rw [show _u8tonumber ((2 : Nat) : ℤ) = 2 from rfl]
          rw [if_neg (by decide), if_neg (by decide), if_pos rfl, u8_coe, u8_coe]
        rw [hp2, Except.ok.injEq] at hp
        subst hp
        exact ⟨rfl, rfl⟩
    · rw [if_neg (fun hcon => hb hcon.1),
        if_neg (fun hcon => hb hcon.1),
        if_neg (fun hcon => hb hcon.1)] at hok
      exact absurd hok (by simp)
  · intro je s b3 b5 b6 b7 b8 b9 b10 b11 b12 b13 b14 b15 b16 b17 hok h1
      h3 h5 h6 h7 h8 h9 h10 h11 h12 h13 h14 h15 h16 h17
    unfold decodeNotification at hok
    simp only [except_bind_ok, fetch_eq_ok] at hok
    obtain ⟨b0, hb0, b1, hb1, hok⟩ := hok
    rw [h1, Option.some.injEq] at hb1
    subst hb1
    simp only [u8_coe] at hok
    by_cases hb : (170 : ℤ) = (b0 : ℤ)
    · rw [if_neg (by intro hcon; exact absurd hcon.2 (by decide)),
        if_pos ⟨hb, rfl⟩] at hok
      unfold decodeAltBody at hok
      simp only [except_bind_ok, fetch_eq_ok, Except.ok.injEq] at hok
      obtain ⟨c3, hc3, c17, hc17, c5, hc5, c6, hc6, c7, hc7, c8, hc8, c9, hc9,
        c10, hc10, c11, hc11, c12, hc12, c13, hc13, c14, hc14, c15, hc15,
        c16, hc16, emsg, hemsg, smsg, hsmsg, p, hp, hfin⟩ := hok
      rw [h3, Option.some.injEq] at hc3
      rw [h17, Option.some.injEq] at hc17
      rw [h5, Option.some.injEq] at hc5
      rw [h6, Option.some.injEq] at hc6
      rw [h7, Option.some.injEq] at hc7
      rw [h8, Option.some.injEq] at hc8
      rw [h9, Option.some.injEq] at hc9
      rw [h10, Option.some.injEq] at hc10
      rw [h11, Option.some.injEq] at hc11
      rw [h12, Option.some.injEq] at hc12
      rw [h13, Option.some.injEq] at hc13
      rw [h14, Option.some.injEq] at hc14
      rw [h15, Option.some.injEq] at hc15
      rw [h16, Option.some.injEq] at hc16
      subst hc3 hc17 hc5 hc6 hc7 hc8 hc9 hc10 hc11 hc12 hc13 hc14 hc15 hc16
      subst hfin
      refine ⟨by simp [u8_coe], by simp [u8_coe], by simp [u8_coe],
        by simp [u8_coe], by simp [u8_coe], by simp [u8_coe],
        ?_, ?_, ?_, ?_, ?_⟩
      · show _UnsignToSign (256 * (b14 : ℤ) + (b13 : ℤ)) = _
        unfold _UnsignToSign
        split_ifs <;> omega
      · show _UnsignToSign (256 * (b16 : ℤ) + (b15 : ℤ)) = _
        unfold _UnsignToSign
        split_ifs <;> omega
      · intro h0
        subst h0
        have hp0 : modeSelect 0 b9 b10 = Except.ok ((b10 : ℤ) + 1, none) := by
          unfold modeSelect
          rw [show _u8tonumber ((0 : Nat) : ℤ) = 0 from rfl]
          rw [if_pos rfl, u8_coe]
        rw [hp0, Except.ok.injEq] at hp
        subst hp
        exact ⟨rfl, rfl⟩
      · intro h0
        subst h0
        have hp1 : modeSelect 1 b9 b10 = Except.ok ((b9 : ℤ), none) := by
          unfold modeSelect
          rw [show _u8tonumber ((1 : Nat) : ℤ) = 1 from rfl]
          rw [if_neg (by decide), if_pos rfl, u8_coe]
        rw [hp1, Except.ok.injEq] at hp
        subst hp
        exact ⟨rfl, rfl⟩
      · intro h0
        subst h0
        have hp2 : modeSelect 2 b9 b10 =
            Except.ok ((b10 : ℤ) + 1, some (b9 : ℤ)) := by
          unfold modeSelect
          rw [show _u8tonumber ((2 : Nat) : ℤ) = 2 from rfl]
          rw [if_neg (by decide), if_neg (by decide), if_pos rfl, u8_coe, u8_coe]
        rw [hp2, Except.ok.injEq] at hp
        subst hp
        exact ⟨rfl, rfl⟩
    · rw [if_neg (fun hcon => hb hcon.1),
        if_neg (fun hcon => hb hcon.1),
        if_neg (fun hcon => hb hcon.1)] at hok
      exact absurd hok (by simp)
  · intro je b8 s h0 h1or h8 hn0 hn1 hn2 hok
    unfold decodeNotification at hok
    simp only [except_bind_ok, fetch_eq_ok] at hok
    obtain ⟨b0, hb0, b1, hb1, hok⟩ := hok
    rw [h0, Option.some.injEq] at hb0
    subst hb0
    simp only [u8_coe] at hok
    rcases h1or with h1 | h1
    · rw [h1, Option.some.injEq] at hb1
      subst hb1
      rw [if_pos ⟨rfl, rfl⟩] at hok
      unfold decodeStdBody at hok
      simp only [except_bind_ok, fetch_eq_ok, Except.ok.injEq] at hok
      obtain ⟨c3, hc3, c4, hc4, c5, hc5, c6, hc6, c7, hc7, c8, hc8, c9, hc9,
        c10, hc10, c11, hc11, c12, hc12, c13, hc13, c14, hc14, c15, hc15,
        c16, hc16, emsg, hemsg, smsg, hsmsg, p, hp, hfin⟩ := hok
      rw [h8, Option.some.injEq] at hc8
      subst hc8
      unfold modeSelect at hp
      simp only [u8_coe] at hp
      rw [if_neg (by exact_mod_cast hn0),
        if_neg (by exact_mod_cast hn1),
        if_neg (by exact_mod_cast hn2)] at hp
      exact absurd hp (by simp)
    · rw [h1, Option.some.injEq] at hb1
      subst hb1
      rw [if_neg (by intro hcon; exact absurd hcon.2 (by decide)),
        if_pos ⟨rfl, rfl⟩] at hok
      unfold decodeAltBody at hok
      simp only [except_bind_ok, fetch_eq_ok, Except.ok.injEq] at hok
      obtain ⟨c3, hc3, c17, hc17, c5, hc5, c6, hc6, c7, hc7, c8, hc8, c9, hc9,
        c10, hc10, c11, hc11, c12, hc12, c13, hc13, c14, hc14, c15, hc15,
        c16, hc16, emsg, hemsg, smsg, hsmsg, p, hp, hfin⟩ := hok
      rw [h8, Option.some.injEq] at hc8
      subst hc8
      unfold modeSelect at hp
      simp only [u8_coe] at hp
      rw [if_neg (by exact_mod_cast hn0),
        if_neg (by exact_mod_cast hn1),
        if_neg (by exact_mod_cast hn2)] at hp
      exact absurd hp (by simp)
  · intro je h0 h1
    unfold decodeNotification
    rw [h0, h1]
    rfl


/-- Witness for Claim C4 at the concrete frames `jeC4` (Standard header)
and `jeC4alt` (Alternate header): the decoded fields match the documented
offsets, including the signed interpretations of 0xFFFF as −1 and 0x8000
as −32768, the byte-17 error code of the Alternate variant, and the
mode-dependent level/temperature split. -/
theorem decode_field_offsets_witness :
    snapC4.running_state = 1 ∧ snapC4.error = 9 ∧ snapC4.altitude = 10000 ∧
    snapC4.case_temperature = -1 ∧ snapC4.set_temperature = some 30 ∧
    snapC4.set_level = 5 ∧
    snapC4alt.error = 5 ∧ snapC4alt.altitude = 10000 ∧
    snapC4alt.case_temperature = -32768 ∧ snapC4alt.cab_temperature = -1 ∧
    snapC4alt.set_level = 7 := by
  have h := decode_field_offsets.1 jeC4 snapC4 1 9 3 16 39 2 30 4 120 0
    255 255 1 0 rfl rfl rfl rfl rfl rfl rfl rfl rfl rfl rfl rfl
    rfl rfl rfl rfl
  obtain ⟨h1, h2, -, h4, -, -, h7, -, -, -, h11⟩ := h
  have hm := h11 rfl
  norm_num at h1 h2 h4 h7 hm
  have ha := decode_field_offsets.2.1 jeC4alt snapC4alt
    1 3 16 39 1 7 0 120 0 0 128 255 255 5 rfl rfl rfl rfl rfl
    rfl rfl rfl rfl rfl rfl rfl rfl rfl rfl rfl
  obtain ⟨-, a2, -, a4, -, -, a7, a8, -, a10, -⟩ := ha
  have ham := a10 rfl
  norm_num at a2 a4 a7 a8 ham
  exact ⟨h1, h2, h4, h7, hm.1, hm.2, a2, a4, a7, a8, ham.1⟩

/-! ## Claim C10 -/

/-- Claim C10: every link-failure recovery handler (BLE disconnect,
timeout, watchdog/runtime error, unexpected error), as well as the
failed-poll branch, leaves the overheat guard fields — active flag, start
time, last temperature, rising count — unchanged while releasing the link
and setting a connection state, so an active lockout persists across
disconnect/reconnect cycles; among the modelled mutation sites only the
successful-poll branch writes the guard. -/
theorem recovery_preserves_overheat_guard :
    (∀ st : SupState,
      (handleBTLEDisconnect st).1.overheat_active = st.overheat_active ∧
      (handleBTLEDisconnect st).1.overheat_start_time = st.overheat_start_time ∧
      (handleBTLEDisconnect st).1.overheat_last_temp = st.overheat_last_temp ∧
      (handleBTLEDisconnect st).1.overheat_temp_rising_count =
        st.overheat_temp_rising_count ∧
      (handleBTLEDisconnect st).1.vdh_connected = false) ∧
    (∀ st : SupState,
      (handleTimeout st).1.overheat_active = st.overheat_active ∧
      (handleTimeout st).1.overheat_start_time = st.overheat_start_time ∧
      (handleTimeout st).1.overheat_last_temp = st.overheat_last_temp ∧
      (handleTimeout st).1.overheat_temp_rising_count =
        st.overheat_temp_rising_count ∧
      (handleTimeout st).1.vdh_connected = false) ∧
    (∀ st : SupState,
      (handleRuntimeError st).1.overheat_active = st.overheat_active ∧
      (handleRuntimeError st).1.overheat_start_time = st.overheat_start_time ∧
      (handleRuntimeError st).1.overheat_last_temp = st.overheat_last_temp ∧
      (handleRuntimeError st).1.overheat_temp_rising_count =
        st.overheat_temp_rising_count ∧
      (handleRuntimeError st).1.vdh_connected = false) ∧
    (∀ st : SupState,
      (handleUnexpected st).1.overheat_active = st.overheat_active ∧
      (handleUnexpected st).1.overheat_start_time = st.overheat_start_time ∧
      (handleUnexpected st).1.overheat_last_temp = st.overheat_last_temp ∧
      (handleUnexpected st).1.overheat_temp_rising_count =
        st.overheat_temp_rising_count ∧
      (handleUnexpected st).1.vdh_connected = false) ∧
    (∀ st : SupState,
      (pollFailure st).1.overheat_active = st.overheat_active ∧
      (pollFailure st).1.overheat_start_time = st.overheat_start_time ∧
      (pollFailure st).1.overheat_last_temp = st.overheat_last_temp ∧
      (pollFailure st).1.overheat_temp_rising_count =
        st.overheat_temp_rising_count) := by
  refine ⟨?_, ?_, ?_, ?_, ?_⟩ <;> intro st
  · unfold handleBTLEDisconnect
    dsimp only
    split_ifs <;> exact ⟨rfl, rfl, rfl, rfl, rfl⟩
  · exact ⟨rfl, rfl, rfl, rfl, rfl⟩
  · exact ⟨rfl, rfl, rfl, rfl, rfl⟩
  · exact ⟨rfl, rfl, rfl, rfl, rfl⟩
  · exact ⟨rfl, rfl, rfl, rfl⟩

/-! ## Claim C1 -/

/-- Claim C1 counterexample: a Standard-header (0xAA,0x55) frame reporting
error code 5 — which resolves to "Inlet sensor fault" in the Standard
table, while "Overheating" is code 9 there — at a cool 20 degrees
activates the guard (src/main.py line 649 checks `result.error == 5`
regardless of header variant), and this error-triggered entry issues no
set-level-1 command (only the temperature-triggered entry at lines 700-705
does). Both directions of the claim fail: code 9 with the Standard header
would not activate, and the entry that does happen sends nothing. -/
theorem overheat_entry_counterexample :
    decodeNotification jeC1 = .ok snapC1 ∧
    snapC1.error = 5 ∧
    snapC1.error_msg = some "Inlet sensor fault" ∧
    _error_strings.get? 9 = some "Overheating" ∧
    snapC1.case_temperature < cfgDefault.overheat_threshold ∧
    baseState.overheat_active = false ∧
    (pollSuccess cfgDefault 100 baseState snapC1).1.overheat_active = true ∧
    (pollSuccess cfgDefault 100 baseState snapC1).2.2 = [] := by
  refine ⟨rfl, rfl, rfl, rfl, by decide, rfl, ?_, ?_⟩ <;>
  · unfold pollSuccess
    dsimp only
    rw [error5Step_eq, overheatStep_eq, tempLimitStep_fst]
    norm_num [baseState, snapC1, cfgDefault, effectiveLockout,
      risingCountAfter, overheat_lockout_time, overheat_extended_lockout,
      get_max_allowed_level]

/-- Claim C1 (amended): from an inactive guard, a successful poll
activates it exactly when the snapshot reports error code 5 (the code the
supervisor hard-codes, "Overheating" only in the Alternate table) or its
case temperature reaches the threshold; every entry records the start time
and current temperature and zeroes the rising count, but the best-effort
set-level-1 command is issued only on a temperature-triggered entry, not
on an error-triggered one. -/
theorem overheat_entry_characterization (cfg : SupConfig) (now : ℚ)
    (st : SupState) (result : Snapshot) (hI : st.overheat_active = false) :
    ((pollSuccess cfg now st result).1.overheat_active = true ↔
      (result.error = 5 ∨
        result.case_temperature ≥ cfg.overheat_threshold)) ∧
    ((pollSuccess cfg now st result).1.overheat_active = true →
      (pollSuccess cfg now st result).1.overheat_start_time = now ∧
      (pollSuccess cfg now st result).1.overheat_last_temp =
        result.case_temperature ∧
      (pollSuccess cfg now st result).1.overheat_temp_rising_count = 0) ∧
    ((pollSuccess cfg now st result).2.2 =
      if result.error ≠ 5 ∧ result.case_temperature ≥ cfg.overheat_threshold
      then [BleCmd.setLevel 1] else []) ∧
    (result.error = 5 →
      Pub.overheatActiveError5 ∈ (pollSuccess cfg now st result).2.1) ∧
    (result.error ≠ 5 → result.case_temperature ≥ cfg.overheat_threshold →
      Pub.overheatActiveTemp result.case_temperature ∈
        (pollSuccess cfg now st result).2.1) := by
  unfold pollSuccess
  dsimp only
  rw [error5Step_eq, overheatStep_eq, tempLimitStep_fst, tempLimitStep_snd]
  dsimp only
  by_cases h5 : result.error = 5
  · rw [if_pos (show result.error = 5 ∧ st.overheat_active = false from ⟨h5, hI⟩)]
    dsimp only
    rw [if_pos rfl]
    have hlk : ¬ (now - now ≥ effectiveLockout
        { st with
            last_successful_poll := now
            consecutive_failures := 0
            current_case_temperature := result.case_temperature
            current_heater_level := result.set_level
            last_max_allowed_level :=
              get_max_allowed_level cfg.temp_limiting_enabled
                cfg.overheat_threshold result.case_temperature
            overheat_active := true
            overheat_start_time := now
            overheat_last_temp := result.case_temperature
            overheat_temp_rising_count := 0 } result) := by
      have hp := effectiveLockout_pos
        { st with
            last_successful_poll := now
            consecutive_failures := 0
            current_case_temperature := result.case_temperature
            current_heater_level := result.set_level
            last_max_allowed_level :=
              get_max_allowed_level cfg.temp_limiting_enabled
                cfg.overheat_threshold result.case_temperature
            overheat_active := true
            overheat_start_time := now
            overheat_last_temp := result.case_temperature
            overheat_temp_rising_count := 0 } result
      linarith
    rw [if_neg hlk]
    refine ⟨by simp [h5], ?_, by simp [h5], by simp, by simp [h5]⟩
    intro _
    refine ⟨rfl, rfl, ?_⟩
    simp [risingCountAfter,
      show ¬ (result.case_temperature > result.case_temperature + 2)
        by omega]
  · rw [if_neg (fun hc : result.error = 5 ∧ st.overheat_active = false =>
      h5 hc.1)]
    dsimp only
    rw [if_neg (by simp [hI])]
    by_cases hT : result.case_temperature ≥ cfg.overheat_threshold
    · rw [if_pos hT]
      exact ⟨by simp [hT], fun _ => ⟨rfl, rfl, rfl⟩, by simp [h5, hT],
        by simp [h5], by simp⟩
    · rw [if_neg hT]
      refine ⟨by simp [h5, hT, hI], ?_, by simp [hT], by simp [h5],
        by simp [hT]⟩
      intro hc
      rw [hI] at hc
      exact absurd hc (by simp)

/-- Witness for Claim C1 (amended): the error-5 snapshot `snapC1` at a
cool temperature enters the guard and issues no command. -/
theorem overheat_entry_characterization_witness :
    (pollSuccess cfgDefault 100 baseState snapC1).1.overheat_active = true ∧
    (pollSuccess cfgDefault 100 baseState snapC1).2.2 = [] := by
  have h := overheat_entry_characterization cfgDefault 100 baseState snapC1 rfl
  refine ⟨h.1.mpr (Or.inl rfl), ?_⟩
  rw [h.2.2.1]
  decide

/-! ## Claim C2 -/

/-- Claim C2 counterexample: with the stored cap at 36 and a poll
reporting level 10 at 255 degrees, the newly computed cap is 2 < 10, the
Supervisor publishes the policy-state change — but the successful-poll
branch issues no command at all (src/main.py lines 628-641 contain no
`set_level` call), contradicting the claimed `setLevelOrTemperature(cap)`
compliance command. -/
theorem capChange_counterexample :
    get_max_allowed_level cfgDefault.temp_limiting_enabled
      cfgDefault.overheat_threshold snapC2.case_temperature = 2 ∧
    baseState.last_max_allowed_level = 36 ∧
    snapC2.set_level = 10 ∧
    Pub.tempLimitActive 2 ∈ (pollSuccess cfgDefault 50 baseState snapC2).2.1 ∧
    (pollSuccess cfgDefault 50 baseState snapC2).2.2 = [] := by
  refine ⟨by decide, rfl, rfl, ?_, ?_⟩ <;>
  · unfold pollSuccess
    dsimp only
    rw [error5Step_eq, overheatStep_eq, tempLimitStep_fst]
    try rw [tempLimitStep_snd]
    norm_num [baseState, snapC2, cfgDefault, get_max_allowed_level]

/-- Claim C2 (amended): on every successful poll whose newly computed cap
differs from the stored one, the Supervisor stores the new cap and emits
the policy-state change (Active with the new cap when it is below 36,
Inactive when returning to 36 from a limited state); it does not issue any
command to bring the device into compliance — the only command the
successful-poll branch can ever issue is the overheat-entry
`set_level(1)`. -/
theorem capChange_behavior (cfg : SupConfig) (now : ℚ) (st : SupState)
    (result : Snapshot) :
    (get_max_allowed_level cfg.temp_limiting_enabled cfg.overheat_threshold
        result.case_temperature ≠ st.last_max_allowed_level →
      (pollSuccess cfg now st result).1.last_max_allowed_level =
        get_max_allowed_level cfg.temp_limiting_enabled
          cfg.overheat_threshold result.case_temperature ∧
      (get_max_allowed_level cfg.temp_limiting_enabled
          cfg.overheat_threshold result.case_temperature < 36 →
        Pub.tempLimitActive
          (get_max_allowed_level cfg.temp_limiting_enabled
            cfg.overheat_threshold result.case_temperature) ∈
          (pollSuccess cfg now st result).2.1) ∧
      (¬ get_max_allowed_level cfg.temp_limiting_enabled
          cfg.overheat_threshold result.case_temperature < 36 →
        st.last_max_allowed_level < 36 →
        Pub.tempLimitInactive ∈ (pollSuccess cfg now st result).2.1)) ∧
    (∀ c ∈ (pollSuccess cfg now st result).2.2, c = BleCmd.setLevel 1) := by
  unfold pollSuccess
  dsimp only
  rw [error5Step_eq, overheatStep_eq, tempLimitStep_fst, tempLimitStep_snd]
  dsimp only
  constructor
  · intro hne
    rw [if_pos hne]
    refine ⟨?_, ?_, ?_⟩
    · split_ifs <;> rfl
    · intro hlt
      rw [if_pos hlt]
      simp
    · intro hge hold
      rw [if_neg hge, if_pos hold]
      simp
  · intro c hc
    split_ifs at hc <;> simp_all

/-- Witness for Claim C2 (amended): the cap drop 36 → 2 caused by
`snapC2` stores the new cap and publishes the Active message. -/
theorem capChange_behavior_witness :
    (pollSuccess cfgDefault 50 baseState snapC2).1.last_max_allowed_level =
      get_max_allowed_level cfgDefault.temp_limiting_enabled
        cfgDefault.overheat_threshold snapC2.case_temperature ∧
    Pub.tempLimitActive
      (get_max_allowed_level cfgDefault.temp_limiting_enabled
        cfgDefault.overheat_threshold snapC2.case_temperature) ∈
      (pollSuccess cfgDefault 50 baseState snapC2).2.1 := by
  have h := capChange_behavior cfgDefault 50 baseState snapC2
  exact ⟨(h.1 (by decide)).1, (h.1 (by decide)).2.1 (by decide)⟩

/-! ## Claim C7 -/

/-- Claim C7 counterexample: the guard enters at t = 0 (256 degrees) and
temperature rises by more than 2 degrees on the polls at t = 2, 4 and 6
(rising count 3, so the claimed effective lockout is the extended 300 s);
yet on the poll at t = 70 — a flat reading, no rise — the code compares
the elapsed 70 s against the local 60-second default
(src/main.py line 666 re-initialises `current_lockout` every poll) and
exits the guard, although only 70 < 300 seconds have elapsed since entry. -/
theorem overheat_escalation_counterexample :
    c7r4.1.overheat_active = true ∧
    c7r4.1.overheat_temp_rising_count = 3 ∧
    c7r4.1.overheat_start_time = 0 ∧
    (70 : ℚ) - c7r4.1.overheat_start_time < overheat_extended_lockout ∧
    ¬ ((snapTemp 265).case_temperature > c7r4.1.overheat_last_temp + 2) ∧
    c7r5.1.overheat_active = false := by
  have h1 : c7r1.1 = { baseState with
      last_successful_poll := 0
      current_case_temperature := 256
      current_heater_level := 5
      last_max_allowed_level := 1
      overheat_active := true
      overheat_start_time := 0
      overheat_last_temp := 256
      overheat_temp_rising_count := 0 } := by
    unfold c7r1 pollSuccess
    dsimp only
    rw [error5Step_eq, overheatStep_eq, tempLimitStep_fst]
    norm_num [baseState, snapTemp, cfgDefault, get_max_allowed_level]
  have h2 : c7r2.1 = { baseState with
      last_successful_poll := 2
      current_case_temperature := 259
      current_heater_level := 5
      last_max_allowed_level := 1
      overheat_active := true
      overheat_start_time := 0
      overheat_last_temp := 259
      overheat_temp_rising_count := 1 } := by
    unfold c7r2 pollSuccess
    rw [h1]
    dsimp only
    rw [error5Step_eq, overheatStep_eq, tempLimitStep_fst]
    norm_num [baseState, snapTemp, cfgDefault, get_max_allowed_level,
      effectiveLockout, risingCountAfter, overheat_lockout_time,
      overheat_extended_lockout]
  have h3 : c7r3.1 = { baseState with
      last_successful_poll := 4
      current_case_temperature := 262
      current_heater_level := 5
      last_max_allowed_level := 1
      overheat_active := true
      overheat_start_time := 0
      overheat_last_temp := 262
      overheat_temp_rising_count := 2 } := by
    unfold c7r3 pollSuccess
    rw [h2]
    dsimp only
    rw [error5Step_eq, overheatStep_eq, tempLimitStep_fst]
    norm_num [baseState, snapTemp, cfgDefault, get_max_allowed_level,
      effectiveLockout, risingCountAfter, overheat_lockout_time,
      overheat_extended_lockout]
  have h4 : c7r4.1 = { baseState with
      last_successful_poll := 6
      current_case_temperature := 265
      current_heater_level := 5
      last_max_allowed_level := 1
      overheat_active := true
      overheat_start_time := 0
      overheat_last_temp := 265
      overheat_temp_rising_count := 3 } := by
    unfold c7r4 pollSuccess
    rw [h3]
    dsimp only
    rw [error5Step_eq, overheatStep_eq, tempLimitStep_fst]
    norm_num [baseState, snapTemp, cfgDefault, get_max_allowed_level,
      effectiveLockout, risingCountAfter, overheat_lockout_time,
      overheat_extended_lockout]
  have h5 : c7r5.1.overheat_active = false := by
    unfold c7r5 pollSuccess
    rw [h4]
    dsimp only
    rw [error5Step_eq, overheatStep_eq, tempLimitStep_fst]
    norm_num [baseState, snapTemp, cfgDefault, get_max_allowed_level,
      effectiveLockout, risingCountAfter, overheat_lockout_time,
      overheat_extended_lockout]
  rw [h4]
  refine ⟨rfl, rfl, rfl, by norm_num [overheat_extended_lockout],
    by norm_num [snapTemp], h5⟩

/-- Claim C7 (amended): while the guard is active, a poll whose case
temperature rose by more than 2 degrees over the last recorded one
increments the rising count; the lockout the poll actually compares
against is the extended 300 s only when that same poll showed a rise and
the (incremented) count has reached 3 — on any poll without a rise the
comparison falls back to the 60-second default, because `current_lockout`
is a local variable re-initialised every iteration — and the guard exits
exactly when the elapsed time since entry reaches that per-poll effective
lockout. -/
theorem overheat_lockout_characterization (cfg : SupConfig) (now : ℚ)
    (st : SupState) (result : Snapshot) (hA : st.overheat_active = true) :
    ((pollSuccess cfg now st result).1.overheat_active = false ↔
      now - st.overheat_start_time ≥ effectiveLockout st result) ∧
    (pollSuccess cfg now st result).1.overheat_last_temp =
      result.case_temperature ∧
    (pollSuccess cfg now st result).1.overheat_start_time =
      st.overheat_start_time ∧
    ((pollSuccess cfg now st result).1.overheat_active = true →
      (pollSuccess cfg now st result).1.overheat_temp_rising_count =
        risingCountAfter st result) ∧
    ((pollSuccess cfg now st result).1.overheat_active = false →
      (pollSuccess cfg now st result).1.overheat_temp_rising_count = 0) := by
  unfold pollSuccess
  dsimp only
  rw [error5Step_eq, overheatStep_eq, tempLimitStep_fst]
  dsimp only
  rw [if_neg (fun hc : result.error = 5 ∧ st.overheat_active = false =>
    by rw [hA] at hc; exact absurd hc.2 (by simp))]
  dsimp only
  rw [if_pos hA]
  have hcap : effectiveLockout
      { st with
          last_successful_poll := now
          consecutive_failures := 0
          current_case_temperature := result.case_temperature
          current_heater_level := result.set_level
          last_max_allowed_level :=
            get_max_allowed_level cfg.temp_limiting_enabled
              cfg.overheat_threshold result.case_temperature } result =
      effectiveLockout st result := by
    unfold effectiveLockout risingCountAfter
    rfl
  have hcnt : risingCountAfter
      { st with
          last_successful_poll := now
          consecutive_failures := 0
          current_case_temperature := result.case_temperature
          current_heater_level := result.set_level
          last_max_allowed_level :=
            get_max_allowed_level cfg.temp_limiting_enabled
              cfg.overheat_threshold result.case_temperature } result =
      risingCountAfter st result := by
    unfold risingCountAfter
    rfl
  rw [hcap, hcnt]
  by_cases hx : now - st.overheat_start_time ≥ effectiveLockout st result
  · rw [if_pos hx]
    exact ⟨by simp [hx], rfl, rfl, by simp, fun _ => rfl⟩
  · rw [if_neg hx]
    exact ⟨by simp [hx, hA], rfl, rfl, fun _ => rfl, by simp [hA]⟩

/-- Witness for Claim C7 (amended): an active guard with rising count
already 3 but a flat temperature reading at t = 70 exits, because the
effective lockout on a poll without a rise is the 60-second default. -/
theorem overheat_lockout_characterization_witness :
    (pollSuccess cfgDefault 70 stC7w (snapTemp 265)).1.overheat_active =
      false ∧
    effectiveLockout stC7w (snapTemp 265) = 60 := by
  have h := overheat_lockout_characterization cfgDefault 70 stC7w
    (snapTemp 265) rfl
  have hlk : effectiveLockout stC7w (snapTemp 265) = 60 := by
    norm_num [effectiveLockout, risingCountAfter, stC7w, baseState,
      snapTemp, overheat_lockout_time]
  exact ⟨h.1.mpr (by rw [hlk]; norm_num [stC7w, baseState]), hlk⟩

/-! ## Claim C6 -/

/-- Claim C6 counterexample: with a live link, an inactive guard, the cap
at 2 (case temperature 255) and the device last known at level 2, an
externally sourced temperature command for 36 is passed through unclamped
as `set_level(36)` (src/main.py lines 489-491 apply neither the cap nor
the anti-spam check to temperature commands; only the level branch at
lines 470-488 does). -/
theorem command_clamp_counterexample :
    on_message stC6 cfgDefault 10 .temperatureCmd 36 true =
      .send (.setLevel 36) ∧
    get_max_allowed_level cfgDefault.temp_limiting_enabled
      cfgDefault.overheat_threshold stC6.current_case_temperature = 2 ∧
    stC6.current_heater_level = 2 ∧
    stC6.vdh_connected = true ∧
    stC6.overheat_active = false := by
  refine ⟨?_, by decide, rfl, rfl, rfl⟩
  unfold on_message
  dsimp only
  rw [if_neg (by norm_num [stC6, baseState])]
  rw [if_neg ?hgate]
  case hgate =>
    intro hc
    have := hc.1
    simp [stC6, baseState] at this
  rw [if_neg (by norm_num)]

/-- Claim C6 (amended): with a live link, an inactive guard and the lock
acquired, an externally sourced *level* command is clamped to the current
cap and skipped when the clamped value equals the device's last known
level — but a *temperature* command is sent through as `set_level` of the
raw payload, with neither clamping nor the anti-spam skip. -/
theorem command_gate_characterization (cfg : SupConfig) (st : SupState)
    (now : ℚ) (payload : Int)
    (hconn : st.vdh_connected = true) (hI : st.overheat_active = false) :
    (on_message st cfg now .levelCmd payload true =
      (if (if payload > get_max_allowed_level cfg.temp_limiting_enabled
              cfg.overheat_threshold st.current_case_temperature then
            get_max_allowed_level cfg.temp_limiting_enabled
              cfg.overheat_threshold st.current_case_temperature
          else payload) = st.current_heater_level then
        .skippedRedundant
          (if payload > get_max_allowed_level cfg.temp_limiting_enabled
              cfg.overheat_threshold st.current_case_temperature then
            get_max_allowed_level cfg.temp_limiting_enabled
              cfg.overheat_threshold st.current_case_temperature
          else payload)
      else
        .send (.setLevel
          (if payload > get_max_allowed_level cfg.temp_limiting_enabled
              cfg.overheat_threshold st.current_case_temperature then
            get_max_allowed_level cfg.temp_limiting_enabled
              cfg.overheat_threshold st.current_case_temperature
          else payload)))) ∧
    (on_message st cfg now .temperatureCmd payload true =
      .send (.setLevel payload)) := by
  constructor <;>
  · unfold on_message
    dsimp only
    rw [if_neg (by simp [hconn])]
    rw [if_neg (fun hc => by rw [hI] at hc; exact absurd hc.1 (by simp))]
    rw [if_neg (by norm_num)]

/-- Witness for Claim C6 (amended): at cap 2 with last known level 2, a
level-8 command is clamped to 2 and then skipped as redundant, while a
temperature-8 command is sent raw. -/
theorem command_gate_characterization_witness :
    on_message stC6 cfgDefault 0 .levelCmd 8 true =
      .skippedRedundant 2 ∧
    on_message stC6 cfgDefault 0 .temperatureCmd 8 true =
      .send (.setLevel 8) := by
  have h := command_gate_characterization cfgDefault stC6 0 8 rfl rfl
  refine ⟨?_, h.2⟩
  rw [h.1]
  decide

/-! ## Claim C9 -/

/-- The lock holder implied by the two contexts' own views (at most one of
them may believe it holds the lock). -/
def holderOf (hp hh : Bool) : Option Tid :=
  if hp then some .poll else if hh then some .handler else none

lemma interleaving_ble_serialized {l r tr : List Ev}
    (hint : IsInterleaving l r tr) :
    ∀ hp hh : Bool,
      ownedBy .poll l = true → ownedBy .handler r = true →
      locallyLocked hp l = true → locallyLocked hh r = true →
      ¬ (hp = true ∧ hh = true) →
      validLockFrom (holderOf hp hh) tr = true →
      bleSerializedFrom (holderOf hp hh) tr = true := by
  induction hint with
  | nil => intros; rfl
  | @left e l' r' tr' h ih =>
    intro hp hh hol hor hll hlr hx hv
    cases e with
    | acquire t =>
      simp only [ownedBy, Bool.and_eq_true, decide_eq_true_eq] at hol
      obtain ⟨ht, hol⟩ := hol
      subst ht
      simp only [locallyLocked, Bool.and_eq_true, Bool.not_eq_true'] at hll
      obtain ⟨hp0, hll⟩ := hll
      subst hp0
      simp only [validLockFrom, Bool.and_eq_true, decide_eq_true_eq] at hv
      obtain ⟨hgh, hv⟩ := hv
      have hh0 : hh = false := by
        cases hh
        · rfl
        · simp [holderOf] at hgh
      subst hh0
      simp only [bleSerializedFrom]
      exact ih true false hol hor hll hlr (by simp) hv
    | release t =>
      simp only [ownedBy, Bool.and_eq_true, decide_eq_true_eq] at hol
      obtain ⟨ht, hol⟩ := hol
      subst ht
      simp only [locallyLocked, Bool.and_eq_true] at hll
      obtain ⟨hp1, hll⟩ := hll
      subst hp1
      have hh0 : hh = false := by
        cases hh
        · rfl
        · exact absurd ⟨rfl, rfl⟩ hx
      subst hh0
      simp only [validLockFrom, Bool.and_eq_true, decide_eq_true_eq] at hv
      obtain ⟨-, hv⟩ := hv
      simp only [bleSerializedFrom]
      exact ih false false hol hor hll hlr (by simp) hv
    | ble t op =>
      simp only [ownedBy, Bool.and_eq_true, decide_eq_true_eq] at hol
      obtain ⟨ht, hol⟩ := hol
      subst ht
      simp only [locallyLocked, Bool.and_eq_true] at hll
      obtain ⟨hp1, hll⟩ := hll
      subst hp1
      have hh0 : hh = false := by
        cases hh
        · rfl
        · exact absurd ⟨rfl, rfl⟩ hx
      subst hh0
      simp only [validLockFrom] at hv
      simp only [bleSerializedFrom, Bool.and_eq_true, decide_eq_true_eq]
      exact ⟨rfl, ih true false hol hor hll hlr (by simp) hv⟩
    | publish t p =>
      simp only [ownedBy, Bool.and_eq_true, decide_eq_true_eq] at hol
      obtain ⟨-, hol⟩ := hol
      simp only [locallyLocked] at hll
      simp only [validLockFrom] at hv
      simp only [bleSerializedFrom]
      exact ih hp hh hol hor hll hlr hx hv
  | @right e l' r' tr' h ih =>
    intro hp hh hol hor hll hlr hx hv
    cases e with
    | acquire t =>
      simp only [ownedBy, Bool.and_eq_true, decide_eq_true_eq] at hor
      obtain ⟨ht, hor⟩ := hor
      subst ht
      simp only [locallyLocked, Bool.and_eq_true, Bool.not_eq_true'] at hlr
      obtain ⟨hh0, hlr⟩ := hlr
      subst hh0
      simp only [validLockFrom, Bool.and_eq_true, decide_eq_true_eq] at hv
      obtain ⟨hgh, hv⟩ := hv
      have hp0 : hp = false := by
        cases hp
        · rfl
        · simp [holderOf] at hgh
      subst hp0
      simp only [bleSerializedFrom]
      exact ih false true hol hor hll hlr (by simp) hv
    | release t =>
      simp only [ownedBy, Bool.and_eq_true, decide_eq_true_eq] at hor
      obtain ⟨ht, hor⟩ := hor
      subst ht
      simp only [locallyLocked, Bool.and_eq_true] at hlr
      obtain ⟨hh1, hlr⟩ := hlr
      subst hh1
      have hp0 : hp = false := by
        cases hp
        · rfl
        · exact absurd ⟨rfl, rfl⟩ hx
      subst hp0
      simp only [validLockFrom, Bool.and_eq_true, decide_eq_true_eq] at hv
      obtain ⟨-, hv⟩ := hv
      simp only [bleSerializedFrom]
      exact ih false false hol hor hll hlr (by simp) hv
    | ble t op =>
      simp only [ownedBy, Bool.and_eq_true, decide_eq_true_eq] at hor
      obtain ⟨ht, hor⟩ := hor
      subst ht
      simp only [locallyLocked, Bool.and_eq_true] at hlr
      obtain ⟨hh1, hlr⟩ := hlr
      subst hh1
      have hp0 : hp = false := by
        cases hp
        · rfl
        · exact absurd ⟨rfl, rfl⟩ hx
      subst hp0
      simp only [validLockFrom] at hv
      simp only [bleSerializedFrom, Bool.and_eq_true, decide_eq_true_eq]
      exact ⟨rfl, ih false true hol hor hll hlr (by simp) hv⟩
    | publish t p =>
      simp only [ownedBy, Bool.and_eq_true, decide_eq_true_eq] at hor
      obtain ⟨-, hor⟩ := hor
      simp only [locallyLocked] at hlr
      simp only [validLockFrom] at hv
      simp only [bleSerializedFrom]
      exact ih hp hh hol hor hll hlr hx hv

/-- Claim C9 counterexample: the claim as stated ("every HeaterLink (BLE)
operation issued by either execution context executes under the shared
lock") is false: the recovery handler's `cleanup_ble_device(vdh)` calls
`disconnect()` with no lock held (src/main.py line 747), so a lock-valid
interleaving exists in which that disconnect races a command-handler
`set_level` exchange that is inside the critical section. -/
theorem lock_serialization_counterexample :
    validLockFrom none c9CexTrace = true ∧
    IsInterleaving (pollRecoveryTrace "Disconnected")
      (handlerSendTrace (.setLevel 5)) c9CexTrace ∧
    bleSerializedFrom none c9CexTrace = false := by
  refine ⟨by decide, ?_, by decide⟩
  exact .right (.right (.left (.left (.right .nil))))

/-- Claim C9 (amended): the request/response exchanges — the poll cycle's
`get_status` and overheat `set_level(1)` regions and every command-handler
operation — are serialized by the single shared lock: in any lock-valid
interleaving of a poll iteration with a command-handler run (send, skip,
or busy path), every BLE event is performed by the thread holding the
lock; and the handler's bounded (5 s) acquisition timeout path publishes
only the busy notice, touching neither the lock nor the HeaterLink.
(Session management — `connect` in the reconnect branch and `disconnect`
in the recovery handlers — runs outside the lock; see the
counterexample.) -/
theorem lock_discipline (eo : Bool) (c : BleCmd) (htr tr : List Ev)
    (hch : htr = handlerSendTrace c ∨ htr = handlerSkipTrace ∨
      htr = handlerBusyTrace)
    (hint : IsInterleaving (pollIterationTrace eo) htr tr)
    (hv : validLockFrom none tr = true) :
    bleSerializedFrom none tr = true ∧
    noBle handlerBusyTrace = true ∧
    noAcquire handlerBusyTrace = true := by
  refine ⟨?_, rfl, rfl⟩
  have h := interleaving_ble_serialized hint false false ?_ ?_ ?_ ?_
    (by simp) hv
  · exact h
  · cases eo <;> decide
  · rcases hch with h | h | h <;> subst h <;>
      simp [handlerSendTrace, handlerSkipTrace, handlerBusyTrace, ownedBy]
  · cases eo <;> decide
  · rcases hch with h | h | h <;> subst h <;>
      simp [handlerSendTrace, handlerSkipTrace, handlerBusyTrace,
        locallyLocked]

/-- Witness for Claim C9 (amended): a poll iteration interleaved with the
busy-path handler is serialized. -/
theorem lock_discipline_witness :
    bleSerializedFrom none c9WitnessTrace = true := by
  have h := lock_discipline false BleCmd.getStatus handlerBusyTrace
    c9WitnessTrace (Or.inr (Or.inr rfl))
    (.left (.left (.left (.right .nil)))) (by decide)
  exact h.1

end VevorBridge
